import Mathlib

/-!
Verification of the AI_Stock_Agent core against its specification.

Shallow embedding of the GARP scoring engine (`garp_strategy.py`,
`data_models.py`), the advanced-metrics calculators (`advanced_metrics.py`),
the regime bootstrap (`prediction_engine.py`) and the backtest engine
(`backtest_engine.py`).  Numbers are embedded as rationals (reals only where
the source applies the transcendental `math.tanh`); Python `None` becomes
`Option`; Python dict rows of a statement DataFrame become partial maps.
Python float formatting inside f-strings is abstracted as `toString` of the
embedded number; no claim depends on the rendered digits.
-/

namespace AIStock

/-! ## String helpers: Python's `pat in s` substring test -/

/-- `charsStartWith pat s` holds when `pat` is an initial run of `s`. -/
def charsStartWith : List Char → List Char → Bool
  | [], _ => true
  | _ :: _, [] => false
  | a :: as, b :: bs => a == b && charsStartWith as bs

/-- `charsContain pat s` holds when `pat` occurs contiguously inside `s`. -/
def charsContain (pat : List Char) : List Char → Bool
  | [] => charsStartWith pat []
  | b :: bs => charsStartWith pat (b :: bs) || charsContain pat bs

/-- Python's `pat in s` on strings. -/
def strContains (s pat : String) : Bool := charsContain pat.toList s.toList

/-! ## Thresholds (`GARPStrategy.__init__`, defaults from the source) -/

structure Thresholds where
  max_debt : ℚ
  min_current : ℚ
  min_roe : ℚ
  max_peg : ℚ
  max_pe : ℚ
  min_z_safe : ℚ
  min_z_distress : ℚ
  min_f_high : ℤ
  max_f_low : ℤ

/-- The defaults hard-coded in `GARPStrategy.__init__` when config is absent. -/
def defaultThresholds : Thresholds :=
  { max_debt := 200
    min_current := 1
    min_roe := 15/100
    max_peg := 3/2
    max_pe := 40
    min_z_safe := 299/100
    min_z_distress := 181/100
    min_f_high := 7
    max_f_low := 3 }

/-! ## `_determine_overall_status` (garp_strategy.py lines 223-299) -/

structure NewsAnalysis where
  sentiment : String
  confidence : ℚ

/-- The inputs `_determine_overall_status` reads from the card and
`market_data`. -/
structure StatusInputs where
  passed_solvency : Bool
  passed_quality : Bool
  passed_valuation : Bool
  passed_technical : Bool
  altman_z_score : Option ℚ
  piotroski_score : Option ℤ
  is_above_ma200 : Bool
  news_analysis : Option NewsAnalysis

/-- The card fields `_determine_overall_status` mutates.  `technical_tags`
holds only the tags this function itself appends. -/
structure StatusState where
  overall_status : String
  overall_reason : String
  technical_tags : List String

/-- Base logic, lines 237-251. -/
def baseStatus (i : StatusInputs) : StatusState :=
  if i.passed_solvency && i.passed_quality && i.passed_valuation then
    if !i.passed_technical then
      ⟨"WATCHLIST", "Fundamentals Great, but Technicals Overheated", []⟩
    else
      ⟨"PASS", "All Systems Go (GARP Approved)", []⟩
  else if i.passed_solvency && i.passed_quality && !i.passed_valuation then
    ⟨"WATCHLIST", "Great Company, Expensive Price", []⟩
  else
    ⟨"REJECT", "Fundamental Red Flags", []⟩

/-- Override 1, bankruptcy veto, lines 257-260: fires when the Z-Score is
present and below `min_z_distress - 0.01` (with defaults: below 1.8). -/
def applyBankruptcyVeto (t : Thresholds) (z : Option ℚ) (s : StatusState) :
    StatusState :=
  match z with
  | none => s
  | some v =>
    if v < t.min_z_distress - 1/100 then
      { s with overall_status := "REJECT"
               overall_reason :=
                 "⛔ Rejected: High Bankruptcy Risk (Z-Score " ++ toString v ++ ")" }
    else s

/-- Override 2, weak-financials veto, lines 262-266. -/
def applyWeakFinancialsVeto (t : Thresholds) (f : Option ℤ) (s : StatusState) :
    StatusState :=
  match f with
  | none => s
  | some fs =>
    if fs ≤ t.max_f_low then
      if s.overall_status = "PASS" then
        { s with overall_status := "WATCHLIST"
                 overall_reason :=
                   "Downgraded: Financials Deteriorating (F-Score " ++ toString fs ++ ")" }
      else s
    else s

/-- Override 3, quality rescue, lines 268-272. -/
def applyQualityRescue (t : Thresholds) (f : Option ℤ) (z : Option ℚ)
    (s : StatusState) : StatusState :=
  if s.overall_status = "REJECT" then
    match f, z with
    | some fs, some zv =>
      if t.min_f_high ≤ fs ∧ t.min_z_safe < zv then
        { s with overall_status := "WATCHLIST"
                 overall_reason :=
                   "Saved by Quality: High F-Score (" ++ toString fs ++ ") & Safe Z-Score" }
      else s
    | _, _ => s
  else s

/-- SMA200 trend filter, lines 274-287. -/
def applyTrendFilter (is_above_ma200 : Bool) (s : StatusState) : StatusState :=
  if is_above_ma200 then s
  else
    let s1 := { s with technical_tags :=
                  s.technical_tags ++ ["📉 Below SMA200 (Downtrend)"] }
    if s1.overall_status = "PASS" then
      { s1 with overall_status := "WATCHLIST"
                overall_reason := "Downgraded: Long-Term Downtrend (Below SMA200)" }
    else if s1.overall_status = "WATCHLIST" then
      if strContains s1.overall_reason "Downtrend" then s1
      else { s1 with overall_reason := s1.overall_reason ++ " & Below SMA200" }
    else s1

/-- News-sentiment veto, lines 289-299. -/
def applyNewsVeto (n : Option NewsAnalysis) (s : StatusState) : StatusState :=
  match n with
  | none => s
  | some a =>
    if a.sentiment = "Negative" ∧ a.confidence > 7/10 then
      if s.overall_status = "PASS" then
        { s with overall_status := "WATCHLIST"
                 overall_reason :=
                   "Downgraded: Negative News Sentiment (Conf: " ++ toString a.confidence ++ ")" }
      else s
    else s

/-- Intermediate state after the bankruptcy veto. -/
def statusAfterZVeto (t : Thresholds) (i : StatusInputs) : StatusState :=
  applyBankruptcyVeto t i.altman_z_score (baseStatus i)

/-- Intermediate state after the weak-financials veto. -/
def statusAfterFVeto (t : Thresholds) (i : StatusInputs) : StatusState :=
  applyWeakFinancialsVeto t i.piotroski_score (statusAfterZVeto t i)

/-- Intermediate state after the quality rescue. -/
def statusAfterRescue (t : Thresholds) (i : StatusInputs) : StatusState :=
  applyQualityRescue t i.piotroski_score i.altman_z_score (statusAfterFVeto t i)

/-- Intermediate state after the SMA200 trend filter. -/
def statusAfterTrend (t : Thresholds) (i : StatusInputs) : StatusState :=
  applyTrendFilter i.is_above_ma200 (statusAfterRescue t i)

/-- `GARPStrategy._determine_overall_status`: the full override pipeline. -/
def determineOverallStatus (t : Thresholds) (i : StatusInputs) : StatusState :=
  applyNewsVeto i.news_analysis (statusAfterTrend t i)

/-! ## `_check_solvency` (garp_strategy.py lines 307-343) -/

structure SolvencyCheck where
  debt_to_equity : Option ℚ
  current_ratio : Option ℚ
  is_passing : Bool
  tags : List String

def checkSolvency (t : Thresholds) (debt_to_equity current_ratio : Option ℚ) :
    SolvencyCheck :=
  let debtPart : List String × Bool :=
    match debt_to_equity with
    | some d =>
      if d > t.max_debt then (["🔴 High Debt (>" ++ toString t.max_debt ++ "%)"], false)
      else (["🟢 Healthy Debt"], true)
    | none => (["⚪ No Debt Data"], true)
  let liqPart : List String × Bool :=
    match current_ratio with
    | some c =>
      if c < t.min_current then (["🔴 Low Liquidity (<" ++ toString t.min_current ++ ")"], false)
      else (["🟢 Good Liquidity"], true)
    | none => (["⚪ No Liquidity Data"], true)
  { debt_to_equity := debt_to_equity
    current_ratio := current_ratio
    is_passing := debtPart.2 && liqPart.2
    tags := debtPart.1 ++ liqPart.1 }

/-! ## `StockHealthCard` (data_models.py) and the cached fallback of
`GARPStrategy.analyze` (garp_strategy.py lines 64-89) -/

/-- The three `OverallStatus` enum values of `data_models.py`. -/
def validStatusValues : List String := ["PASS", "WATCHLIST", "REJECT"]

structure StockHealthCard where
  symbol : String
  price : ℚ
  strategy_type : String
  solvency_check : SolvencyCheck
  overall_status : String
  overall_reason : String
  red_flags : List String
  advanced_tags : List String

def emptySolvencyCheck : SolvencyCheck :=
  { debt_to_equity := none, current_ratio := none, is_passing := false, tags := [] }

/-- Dataclass construction including `__post_init__` validation
(data_models.py lines 82-87).  Field defaults are those of the dataclass;
`overall_status` defaults to `"REJECT"`. -/
def mkStockHealthCard (symbol : String) (price : ℚ) (strategy_type : String)
    (overall_status : String) : Except String StockHealthCard :=
  if overall_status ∈ validStatusValues then
    .ok { symbol := symbol
          price := price
          strategy_type := strategy_type
          solvency_check := emptySolvencyCheck
          overall_status := overall_status
          overall_reason := ""
          red_flags := []
          advanced_tags := [] }
  else
    .error ("Invalid overall_status: " ++ overall_status)

/-- `_check_solvency` as it acts on the whole card: it rewrites
`solvency_check` and touches nothing else (in particular not `red_flags`). -/
def checkSolvencyOnCard (t : Thresholds) (card : StockHealthCard)
    (debt_to_equity current_ratio : Option ℚ) : StockHealthCard :=
  { card with solvency_check := checkSolvency t debt_to_equity current_ratio }

/-- The cached-data fallback of `GARPStrategy.analyze` (lines 70-87): a card
is constructed with the dataclass default status `"REJECT"` (which passes
validation), then `overall_status` is overwritten by direct field assignment
with `raw.get('overall_status', 'UNKNOWN')`, bypassing `__post_init__`. -/
def analyzeCachedFallback (strategy_type symbol : String)
    (raw_symbol : Option String) (raw_price : Option ℚ)
    (raw_overall_status : Option String) (cached_date : String) :
    StockHealthCard :=
  let base : StockHealthCard :=
    { symbol := raw_symbol.getD symbol
      price := raw_price.getD 0
      strategy_type := strategy_type
      solvency_check := emptySolvencyCheck
      overall_status := "REJECT"
      overall_reason := ""
      red_flags := []
      advanced_tags := [] }
  { base with
      overall_status := raw_overall_status.getD "UNKNOWN"
      overall_reason := "Cached Data (Last Updated: " ++ cached_date ++ ")"
      advanced_tags := base.advanced_tags ++
        ["⚠️ Offline Mode (Cached: " ++ cached_date ++ ")"] }

/-- Status inputs of an analysis whose `info` has `debtToEquity = 300`: the
solvency flag is whatever `_check_solvency` computes for it, everything else
is free. -/
def highDebtStatusInputs (cr : Option ℚ) (q v tech : Bool) (z : Option ℚ)
    (f : Option ℤ) (ma : Bool) (news : Option NewsAnalysis) : StatusInputs :=
  { passed_solvency := (checkSolvency defaultThresholds (some 300) cr).is_passing
    passed_quality := q
    passed_valuation := v
    passed_technical := tech
    altman_z_score := z
    piotroski_score := f
    is_above_ma200 := ma
    news_analysis := news }

/-! ## `calculate_sentiment_adjusted_dcf` (advanced_metrics.py lines 280-410)

Discount rate and growth rate.  The source's `math.tanh` is embedded as
`Real.tanh`, hence these two definitions live over `ℝ`. -/

/-- Sentiment penalty, lines 337-342: `0.02 * tanh(z)` for positive market
z-score, `0` otherwise. -/
noncomputable def dcfSentimentPenalty (z : ℝ) : ℝ :=
  if 0 < z then 0.02 * Real.tanh z else 0

/-- Base discount rate, line 336. -/
def dcfBaseRate : ℝ := 0.09

/-- Terminal growth rate, line 382. -/
def dcfTerminalGrowth : ℝ := 0.03

/-- Discount rate actually used for the terminal-value perpetuity, including
the safety clamp of lines 384-385. -/
noncomputable def dcfDiscountRate (z : ℝ) : ℝ :=
  if dcfBaseRate + dcfSentimentPenalty z ≤ dcfTerminalGrowth then
    dcfTerminalGrowth + 0.01
  else dcfBaseRate + dcfSentimentPenalty z

/-- The `info` fields relevant to the DCF growth-rate computation.  The dict
also carries the company's `sector`; `calculate_sentiment_adjusted_dcf`
never reads it. -/
structure DcfInfoFields where
  sector : String
  revenueGrowth : Option ℚ

/-- Growth rate, lines 325-333: `revenueGrowth` defaulted to 5% when absent
or `None`, capped at 15%, floored at 2%. -/
def dcfGrowthRate (info : DcfInfoFields) : ℚ :=
  let growth_input := info.revenueGrowth.getD (5/100)
  max (min growth_input (15/100)) (2/100)

/-! ## `calculate_piotroski_f_score` (advanced_metrics.py lines 23-158)

A financial statement is a partial map from row label to its two most recent
yearly values `(current, prior)`; the source's guard already requires at
least two columns in each statement. -/

/-- A statement DataFrame restricted to its two most recent columns. -/
def Statement : Type := String → Option (ℚ × ℚ)

/-- `get_val` helper, lines 38-41: a missing row reads as `0.0`. -/
def get_val (df : Statement) (row_name : String) (col_idx : ℕ) : ℚ :=
  match df row_name with
  | none => 0
  | some (c, p) => if col_idx = 0 then c else p

/-- Result of the F-Score computation: `insufficient` mirrors the early
return of lines 28-29. -/
inductive FScoreResult where
  | insufficient (details : String)
  | ok (score : ℤ) (details : List String) (max_score : ℤ)

/-- Score of a result (`None` on the insufficient path). -/
def FScoreResult.score : FScoreResult → Option ℤ
  | .insufficient _ => none
  | .ok s _ _ => some s

/-- Details of a result on the success path. -/
def FScoreResult.detailList : FScoreResult → List String
  | .insufficient _ => []
  | .ok _ d _ => d

/-- The no-dilution criterion, lines 108-118: share counts are read from
`'Ordinary Shares Number'`, falling back to `'Share Issued'` when the
current reading is `0`; the point is earned when `shares_curr ≤ shares_py`. -/
def dilutionCriterion (bs : Statement) : Bool :=
  let shares_curr0 := get_val bs "Ordinary Shares Number" 0
  let shares_py0 := get_val bs "Ordinary Shares Number" 1
  let shares_curr :=
    if shares_curr0 = 0 then get_val bs "Share Issued" 0 else shares_curr0
  let shares_py :=
    if shares_curr0 = 0 then get_val bs "Share Issued" 1 else shares_py0
  decide (shares_curr ≤ shares_py)

/-- `calculate_piotroski_f_score`.  `sufficientData` stands for
`has_data ∧ all three statements have ≥ 2 columns`. -/
def calculate_piotroski_f_score (sufficientData : Bool)
    (bs inc cf : Statement) : FScoreResult :=
  if !sufficientData then
    .insufficient "Insufficient historical data (need 2 years)"
  else
    let ni_curr := get_val inc "Net Income" 0
    let crit1 := decide (ni_curr > 0)
    let cfo_curr := get_val cf "Operating Cash Flow" 0
    let crit2 := decide (cfo_curr > 0)
    let ta_curr := get_val bs "Total Assets" 0
    let ta_py := get_val bs "Total Assets" 1
    let ni_py := get_val inc "Net Income" 1
    let roa_curr := if ta_curr ≠ 0 then ni_curr / ta_curr else 0
    let roa_py := if ta_py ≠ 0 then ni_py / ta_py else 0
    let crit3 := decide (roa_curr > roa_py)
    let crit4 := decide (cfo_curr > ni_curr)
    let ltd_curr := get_val bs "Long Term Debt" 0
    let ltd_py := get_val bs "Long Term Debt" 1
    let crit5 := decide (ltd_curr ≤ ltd_py)
    let ca_curr := get_val bs "Current Assets" 0
    let cl_curr := get_val bs "Current Liabilities" 0
    let ca_py := get_val bs "Current Assets" 1
    let cl_py := get_val bs "Current Liabilities" 1
    let cr_curr := if cl_curr ≠ 0 then ca_curr / cl_curr else 0
    let cr_py := if cl_py ≠ 0 then ca_py / cl_py else 0
    let crit6 := decide (cr_curr > cr_py)
    let crit7 := dilutionCriterion bs
    let rev_curr := get_val inc "Total Revenue" 0
    let gp_curr := get_val inc "Gross Profit" 0
    let rev_py := get_val inc "Total Revenue" 1
    let gp_py := get_val inc "Gross Profit" 1
    let gm_curr := if rev_curr ≠ 0 then gp_curr / rev_curr else 0
    let gm_py := if rev_py ≠ 0 then gp_py / rev_py else 0
    let crit8 := decide (gm_curr > gm_py)
    let at_curr := if ta_curr ≠ 0 then rev_curr / ta_curr else 0
    let at_py := if ta_py ≠ 0 then rev_py / ta_py else 0
    let crit9 := decide (at_curr > at_py)
    let score : ℤ :=
      (([crit1, crit2, crit3, crit4, crit5, crit6, crit7, crit8,
         crit9].countP (fun b => b) : ℕ) : ℤ)
    let details : List String :=
      [ if crit1 then "✅ Positive Net Income" else "❌ Negative Net Income"
      , if crit2 then "✅ Positive Operating Cash Flow" else "❌ Negative Operating Cash Flow"
      , if crit3 then "✅ ROA Improved" else "❌ ROA Declined"
      , if crit4 then "✅ CFO > Net Income" else "❌ CFO < Net Income"
      , if crit5 then "✅ Lower/Stable Leverage" else "❌ Increased Leverage"
      , if crit6 then "✅ Current Ratio Improved" else "❌ Current Ratio Declined"
      , if crit7 then "✅ No Dilution" else "❌ Shares Diluted"
      , if crit8 then "✅ Gross Margin Improved" else "❌ Gross Margin Declined"
      , if crit9 then "✅ Asset Turnover Improved" else "❌ Asset Turnover Declined" ]
    .ok score details 9

/-! ## `BacktestEngine` (backtest_engine.py lines 48-175) -/

structure TradeRecord where
  date : ℕ
  action : String
  price : ℚ
  shares : ℕ
  value : ℚ
  reason : String

structure EngineState where
  capital : ℚ
  holdings : ℕ
  ledger : List TradeRecord

/-- Slippage model, line 129. -/
def executionPrice (price : ℚ) (signal : String) : ℚ :=
  if signal = "PASS" then price * (1001/1000) else price * (999/1000)

/-- `_execute_trade`, lines 120-155.  `int(self.capital // execution_price)`
is floor division followed by truncation to a non-negative share count. -/
def executeTrade (date : ℕ) (price : ℚ) (signal : String) (reason : String)
    (s : EngineState) : EngineState :=
  let ep := executionPrice price signal
  if signal = "PASS" then
    if s.capital > ep then
      let shares_to_buy : ℕ := (⌊s.capital / ep⌋).toNat
      if shares_to_buy > 0 then
        let cost := (shares_to_buy : ℚ) * ep
        { capital := s.capital - cost
          holdings := s.holdings + shares_to_buy
          ledger := s.ledger ++
            [{ date := date, action := "BUY", price := ep,
               shares := shares_to_buy, value := cost, reason := reason }] }
      else s
    else s
  else if signal = "REJECT" then
    if s.holdings > 0 then
      let proceeds := (s.holdings : ℚ) * ep
      { capital := s.capital + proceeds
        holdings := 0
        ledger := s.ledger ++
          [{ date := date, action := "SELL", price := ep,
             shares := s.holdings, value := proceeds, reason := reason }] }
    else s
  else s

/-- One simulated trading day of `BacktestEngine.run` (lines 88-116): the
strategy call may raise (`Except.error`), in which case the loop `continue`s
and the state is untouched; otherwise the card's status drives the trade. -/
def stepDay (analyzeOn : ℕ → Except String (String × String))
    (s : EngineState) (day : ℕ × ℚ) : EngineState :=
  match analyzeOn day.1 with
  | .error _ => s
  | .ok card => executeTrade day.1 day.2 card.1 card.2 s

/-- The walk-forward loop of `BacktestEngine.run` over the trading days. -/
def runBacktest (analyzeOn : ℕ → Except String (String × String))
    (initial_capital : ℚ) (days : List (ℕ × ℚ)) : EngineState :=
  days.foldl (stepDay analyzeOn) ⟨initial_capital, 0, []⟩

/-- The trade sequence abstracted over the per-day signals: each event is
`(date, price, signal, reason)` and is fed to `_execute_trade` in order,
starting from fresh capital, zero holdings and an empty ledger. -/
def runTrades (initial_capital : ℚ)
    (events : List (ℕ × ℚ × String × String)) : EngineState :=
  events.foldl (fun s e => executeTrade e.1 e.2.1 e.2.2.1 e.2.2.2 s)
    ⟨initial_capital, 0, []⟩

/-- Ledger aggregate: total BUY notional. -/
def buyNotional (l : List TradeRecord) : ℚ :=
  ((l.filter (fun r => r.action = "BUY")).map (fun r => r.value)).sum

/-- Ledger aggregate: total SELL proceeds. -/
def sellProceeds (l : List TradeRecord) : ℚ :=
  ((l.filter (fun r => r.action = "SELL")).map (fun r => r.value)).sum

/-- Ledger aggregate: total shares bought. -/
def buyShares (l : List TradeRecord) : ℤ :=
  ((l.filter (fun r => r.action = "BUY")).map (fun r => (r.shares : ℤ))).sum

/-- Ledger aggregate: total shares sold. -/
def sellShares (l : List TradeRecord) : ℤ :=
  ((l.filter (fun r => r.action = "SELL")).map (fun r => (r.shares : ℤ))).sum

/-- The accounting invariant the ledger must satisfy against the state. -/
def LedgerInvariant (initial_capital : ℚ) (s : EngineState) : Prop :=
  s.capital = initial_capital - buyNotional s.ledger + sellProceeds s.ledger ∧
  (s.holdings : ℤ) = buyShares s.ledger - sellShares s.ledger

/-- Final portfolio value as computed in `_generate_report`, line 160. -/
def portfolioValue (s : EngineState) (last_price : ℚ) : ℚ :=
  s.capital + (s.holdings : ℚ) * last_price

/-! ## `_run_regime_bootstrap` (prediction_engine.py lines 191-238)

The RNG draw `np.random.choice(sample_pool, size=(N, D))` is abstracted as
an explicit list of simulated paths `sims`; everything downstream of the
draw is embedded exactly. -/

/-- Structural insertion sort (ascending), modelling numpy's sort. -/
def insertAsc (x : ℚ) : List ℚ → List ℚ
  | [] => [x]
  | y :: ys => if x ≤ y then x :: y :: ys else y :: insertAsc x ys

/-- Ascending sort of a list of rationals. -/
def sortAsc (xs : List ℚ) : List ℚ := xs.foldr insertAsc []

/-- `np.median`: middle order statistic, average of the two middle ones for
even length (`0` on the empty list, where numpy yields NaN). -/
def npMedian (xs : List ℚ) : ℚ :=
  let s := sortAsc xs
  let n := s.length
  if n = 0 then 0
  else if n % 2 = 1 then s.getD (n / 2) 0
  else (s.getD (n / 2 - 1) 0 + s.getD (n / 2) 0) / 2

/-- `np.percentile` with the default linear interpolation (`0` on the empty
list, where numpy raises). -/
def npPercentile (xs : List ℚ) (q : ℚ) : ℚ :=
  let s := sortAsc xs
  let n := s.length
  if n = 0 then 0
  else
    let h : ℚ := ((n : ℚ) - 1) * q / 100
    let i : ℤ := ⌊h⌋
    let lo := s.getD i.toNat 0
    let hi := s.getD (min (i.toNat + 1) (n - 1)) 0
    lo + (h - (i : ℚ)) * (hi - lo)

/-- `np.mean(cum_returns > 0)`: mean of the boolean indicator array. -/
def npMeanOfPos (xs : List ℚ) : ℚ :=
  ((xs.map (fun x => if 0 < x then (1 : ℚ) else 0)).sum) / (xs.length : ℚ)

/-- Cumulative path return `np.prod(1 + path) - 1`, line 226. -/
def cumReturnFold (path : List ℚ) : ℚ :=
  (path.foldl (fun acc r => acc * (1 + r)) 1) - 1

/-- Pool selection, lines 210-218: returns of the matching regime, falling
back to the full history when fewer than 50 observations match. -/
def selectSamplePool (returns : List ℚ) (spyBullish : List Bool)
    (is_current_bullish : Bool) : List ℚ :=
  let pool := ((returns.zip spyBullish).filter
    (fun p => if is_current_bullish then p.2 else !p.2)).map Prod.fst
  if pool.length < 50 then returns else pool

structure BootstrapResult where
  expected_return : ℚ
  win_rate : ℚ
  var_95 : ℚ
  sample_size : ℕ

/-- `_run_regime_bootstrap`, parametrised by the drawn simulation paths. -/
def runRegimeBootstrap (returns : List ℚ) (spyBullish : List Bool)
    (is_current_bullish : Bool) (sims : List (List ℚ)) : BootstrapResult :=
  let sample_pool := selectSamplePool returns spyBullish is_current_bullish
  let cum_returns := sims.map cumReturnFold
  { expected_return := npMedian cum_returns
    win_rate := npMeanOfPos cum_returns
    var_95 := npPercentile cum_returns 5
    sample_size := sample_pool.length }

/-! ## Helper lemmas about the status-override pipeline -/

theorem baseStatus_mem (i : StatusInputs) :
    (baseStatus i).overall_status ∈ validStatusValues := by
  unfold baseStatus validStatusValues
  split_ifs <;> simp

theorem applyBankruptcyVeto_none (t : Thresholds) (s : StatusState) :
    applyBankruptcyVeto t none s = s := rfl

theorem applyBankruptcyVeto_fires (t : Thresholds) (v : ℚ) (s : StatusState)
    (h : v < t.min_z_distress - 1/100) :
    (applyBankruptcyVeto t (some v) s).overall_status = "REJECT" := by
  simp only [applyBankruptcyVeto]
  rw [if_pos h]

theorem applyBankruptcyVeto_status (t : Thresholds) (z : Option ℚ) (s : StatusState) :
    (applyBankruptcyVeto t z s).overall_status = s.overall_status ∨
    (applyBankruptcyVeto t z s).overall_status = "REJECT" := by
  cases z with
  | none => exact Or.inl rfl
  | some v =>
    by_cases h : v < t.min_z_distress - 1/100
    · right
      simp only [applyBankruptcyVeto]
      rw [if_pos h]
    · left
      simp only [applyBankruptcyVeto]
      rw [if_neg h]

theorem applyBankruptcyVeto_preserves_reject (t : Thresholds) (z : Option ℚ)
    (s : StatusState) (h : s.overall_status = "REJECT") :
    (applyBankruptcyVeto t z s).overall_status = "REJECT" := by
  rcases applyBankruptcyVeto_status t z s with h1 | h1
  · rw [h1, h]
  · exact h1

theorem applyWeakFinancialsVeto_of_ne_pass (t : Thresholds) (f : Option ℤ)
    (s : StatusState) (h : s.overall_status ≠ "PASS") :
    applyWeakFinancialsVeto t f s = s := by
  cases f with
  | none => rfl
  | some fs =>
    by_cases h1 : fs ≤ t.max_f_low
    · simp [applyWeakFinancialsVeto, h1, h]
    · simp [applyWeakFinancialsVeto, h1]

theorem applyWeakFinancialsVeto_status (t : Thresholds) (f : Option ℤ)
    (s : StatusState) :
    (applyWeakFinancialsVeto t f s).overall_status = s.overall_status ∨
    (applyWeakFinancialsVeto t f s).overall_status = "WATCHLIST" := by
  cases f with
  | none => exact Or.inl rfl
  | some fs =>
    by_cases h1 : fs ≤ t.max_f_low
    · by_cases h2 : s.overall_status = "PASS"
      · right
        simp [applyWeakFinancialsVeto, h1, h2]
      · left
        simp [applyWeakFinancialsVeto, h1, h2]
    · left
      simp [applyWeakFinancialsVeto, h1]

theorem applyQualityRescue_none_f (t : Thresholds) (z : Option ℚ) (s : StatusState) :
    applyQualityRescue t none z s = s := by
  cases z <;> simp [applyQualityRescue]

theorem applyQualityRescue_none_z (t : Thresholds) (f : Option ℤ) (s : StatusState) :
    applyQualityRescue t f none s = s := by
  cases f <;> simp [applyQualityRescue]

theorem applyQualityRescue_of_not_cond (t : Thresholds) (fs : ℤ) (v : ℚ)
    (s : StatusState) (h : ¬(t.min_f_high ≤ fs ∧ t.min_z_safe < v)) :
    applyQualityRescue t (some fs) (some v) s = s := by
  by_cases h1 : s.overall_status = "REJECT"
  · simp [applyQualityRescue, h1, h]
  · simp [applyQualityRescue, h1]

theorem applyQualityRescue_of_z_le (t : Thresholds) (f : Option ℤ) (v : ℚ)
    (s : StatusState) (h : ¬ t.min_z_safe < v) :
    applyQualityRescue t f (some v) s = s := by
  cases f with
  | none => exact applyQualityRescue_none_f t _ s
  | some fs => exact applyQualityRescue_of_not_cond t fs v s (fun hc => h hc.2)

theorem applyQualityRescue_fires (t : Thresholds) (fs : ℤ) (v : ℚ) (s : StatusState)
    (hs : s.overall_status = "REJECT") (h1 : t.min_f_high ≤ fs)
    (h2 : t.min_z_safe < v) :
    (applyQualityRescue t (some fs) (some v) s).overall_status = "WATCHLIST" := by
  simp [applyQualityRescue, hs, h1, h2]

theorem applyQualityRescue_status (t : Thresholds) (f : Option ℤ) (z : Option ℚ)
    (s : StatusState) :
    (applyQualityRescue t f z s).overall_status = s.overall_status ∨
    (applyQualityRescue t f z s).overall_status = "WATCHLIST" := by
  cases f with
  | none => rw [applyQualityRescue_none_f]; exact Or.inl rfl
  | some fs =>
    cases z with
    | none => rw [applyQualityRescue_none_z]; exact Or.inl rfl
    | some v =>
      by_cases h : t.min_f_high ≤ fs ∧ t.min_z_safe < v
      · by_cases h1 : s.overall_status = "REJECT"
        · right
          simp [applyQualityRescue, h1, h]
        · left
          simp [applyQualityRescue, h1]
      · rw [applyQualityRescue_of_not_cond t fs v s h]
        exact Or.inl rfl

theorem applyTrendFilter_status (b : Bool) (s : StatusState) :
    (applyTrendFilter b s).overall_status = s.overall_status ∨
    (applyTrendFilter b s).overall_status = "WATCHLIST" := by
  cases b with
  | true => exact Or.inl rfl
  | false =>
    by_cases h1 : s.overall_status = "PASS"
    · right
      simp [applyTrendFilter, h1]
    · by_cases h2 : s.overall_status = "WATCHLIST"
      · by_cases h3 : strContains s.overall_reason "Downtrend" = true
        · left
          simp [applyTrendFilter, h1, h2, h3]
        · left
          simp [applyTrendFilter, h1, h2, h3]
      · left
        simp [applyTrendFilter, h1, h2]

theorem applyTrendFilter_preserves_reject (b : Bool) (s : StatusState)
    (h : s.overall_status = "REJECT") :
    (applyTrendFilter b s).overall_status = "REJECT" := by
  rcases applyTrendFilter_status b s with h1 | h1
  · rw [h1, h]
  · exfalso
    cases b with
    | true => simp only [applyTrendFilter, if_pos rfl] at h1; exact absurd (h1 ▸ h) (by decide)
    | false =>
      have hp : s.overall_status ≠ "PASS" := by rw [h]; decide
      have hw : s.overall_status ≠ "WATCHLIST" := by rw [h]; decide
      have : (applyTrendFilter false s).overall_status = s.overall_status := by
        simp [applyTrendFilter, hp, hw]
      rw [this, h] at h1
      exact absurd h1 (by decide)

theorem applyTrendFilter_preserves_watchlist (b : Bool) (s : StatusState)
    (h : s.overall_status = "WATCHLIST") :
    (applyTrendFilter b s).overall_status = "WATCHLIST" := by
  rcases applyTrendFilter_status b s with h1 | h1
  · rw [h1, h]
  · exact h1

theorem applyNewsVeto_of_ne_pass (n : Option NewsAnalysis) (s : StatusState)
    (h : s.overall_status ≠ "PASS") : applyNewsVeto n s = s := by
  cases n with
  | none => rfl
  | some a =>
    by_cases h1 : a.sentiment = "Negative" ∧ a.confidence > 7/10
    · simp [applyNewsVeto, h1, h]
    · simp [applyNewsVeto, h1]

theorem mem_validStatus_step (x y : StatusState) (lit : String)
    (hyx : y.overall_status = x.overall_status ∨ y.overall_status = lit)
    (hx : x.overall_status ∈ validStatusValues) (hlit : lit ∈ validStatusValues) :
    y.overall_status ∈ validStatusValues := by
  rcases hyx with h | h
  · rw [h]; exact hx
  · rw [h]; exact hlit

theorem baseStatus_reject_of_not_solvency (i : StatusInputs)
    (h : i.passed_solvency = false) :
    baseStatus i = ⟨"REJECT", "Fundamental Red Flags", []⟩ := by
  simp [baseStatus, h]

theorem statusAfterFVeto_reject_of_base_reject (t : Thresholds) (i : StatusInputs)
    (h : (baseStatus i).overall_status = "REJECT") :
    (statusAfterFVeto t i).overall_status = "REJECT" := by
  have h1 : (statusAfterZVeto t i).overall_status = "REJECT" :=
    applyBankruptcyVeto_preserves_reject t i.altman_z_score (baseStatus i) h
  unfold statusAfterFVeto
  rw [applyWeakFinancialsVeto_of_ne_pass t i.piotroski_score _ (by rw [h1]; decide)]
  exact h1

theorem determine_of_afterTrend_ne_pass (t : Thresholds) (i : StatusInputs)
    (h : (statusAfterTrend t i).overall_status ≠ "PASS") :
    determineOverallStatus t i = statusAfterTrend t i :=
  applyNewsVeto_of_ne_pass i.news_analysis (statusAfterTrend t i) h

theorem determine_reject_of_afterRescue_reject (t : Thresholds) (i : StatusInputs)
    (h : (statusAfterRescue t i).overall_status = "REJECT") :
    (determineOverallStatus t i).overall_status = "REJECT" := by
  have h4 : (statusAfterTrend t i).overall_status = "REJECT" :=
    applyTrendFilter_preserves_reject i.is_above_ma200 _ h
  rw [determine_of_afterTrend_ne_pass t i (by rw [h4]; decide)]
  exact h4

theorem applyNewsVeto_status (n : Option NewsAnalysis) (s : StatusState) :
    (applyNewsVeto n s).overall_status = s.overall_status ∨
    (applyNewsVeto n s).overall_status = "WATCHLIST" := by
  cases n with
  | none => exact Or.inl rfl
  | some a =>
    by_cases h1 : a.sentiment = "Negative" ∧ a.confidence > 7/10
    · by_cases h2 : s.overall_status = "PASS"
      · right
        simp [applyNewsVeto, h1, h2]
      · left
        simp [applyNewsVeto, h1, h2]
    · left
      simp [applyNewsVeto, h1]

/-! ## Claim theorems -/

/-- Claim C1: with the default thresholds, whenever the card's
`altman_z_score` is a non-null value below the distress cutoff 1.8,
`_determine_overall_status` returns `REJECT` whatever the four factor
checks, the F-Score, the trend flag and the news sentiment are (the quality
rescue cannot undo it, since it needs a Z-Score above 2.99); and when
`altman_z_score` is null the bankruptcy veto is the identity, i.e. it does
not fire. -/
theorem c1_bankruptcy_veto_dominates :
    (∀ (i : StatusInputs) (v : ℚ), i.altman_z_score = some v → v < 9/5 →
      (determineOverallStatus defaultThresholds i).overall_status = "REJECT") ∧
    (∀ s : StatusState, applyBankruptcyVeto defaultThresholds none s = s) := by
  constructor
  · intro i v hz hv
    have h1 : (statusAfterZVeto defaultThresholds i).overall_status = "REJECT" := by
      unfold statusAfterZVeto
      rw [hz]
      exact applyBankruptcyVeto_fires _ _ _ (by
        show v < defaultThresholds.min_z_distress - 1/100
        have : defaultThresholds.min_z_distress - 1/100 = 9/5 := by
          norm_num [defaultThresholds]
        rw [this]
        exact hv)
    have h2 : statusAfterFVeto defaultThresholds i = statusAfterZVeto defaultThresholds i := by
      unfold statusAfterFVeto
      exact applyWeakFinancialsVeto_of_ne_pass _ _ _ (by rw [h1]; decide)
    have h3 : (statusAfterRescue defaultThresholds i).overall_status = "REJECT" := by
      unfold statusAfterRescue
      rw [hz]
      rw [applyQualityRescue_of_z_le _ _ _ _ (by
        show ¬ defaultThresholds.min_z_safe < v
        have : defaultThresholds.min_z_safe = 299/100 := rfl
        rw [this]
        intro hcon
        linarith)]
      rw [h2]
      exact h1
    exact determine_reject_of_afterRescue_reject _ _ h3
  · intro s
    rfl

/-- Witness for C1 at a concrete input: all four checks pass, the F-Score is
a perfect 9 and the market is trending up, yet `Z = 1 < 1.8` forces
`REJECT`. -/
theorem c1_witness :
    (determineOverallStatus defaultThresholds
      ⟨true, true, true, true, some 1, some 9, true, none⟩).overall_status = "REJECT" :=
  c1_bankruptcy_veto_dominates.1
    ⟨true, true, true, true, some 1, some 9, true, none⟩ 1 rfl (by norm_num)

/-- Claim C2: whenever the quality rescue fires — the status entering the
rescue step is `REJECT`, the F-Score is non-null and at least
`min_f_high`, the Z-Score is non-null and above `min_z_safe` — the final
status returned by `_determine_overall_status` is never `PASS` (it is in
fact `WATCHLIST`, and the later trend and news overrides cannot raise it). -/
theorem c2_quality_rescue_never_pass (t : Thresholds) (i : StatusInputs)
    (fs : ℤ) (zv : ℚ)
    (hf : i.piotroski_score = some fs) (hz : i.altman_z_score = some zv)
    (hfs : t.min_f_high ≤ fs) (hzv : t.min_z_safe < zv)
    (hR : (statusAfterFVeto t i).overall_status = "REJECT") :
    (determineOverallStatus t i).overall_status ≠ "PASS" := by
  have h3 : (statusAfterRescue t i).overall_status = "WATCHLIST" := by
    unfold statusAfterRescue
    rw [hf, hz]
    exact applyQualityRescue_fires t fs zv _ hR hfs hzv
  have h4 : (statusAfterTrend t i).overall_status = "WATCHLIST" :=
    applyTrendFilter_preserves_watchlist i.is_above_ma200 _ h3
  rw [determine_of_afterTrend_ne_pass t i (by rw [h4]; decide), h4]
  decide

/-- Witness for C2 at a concrete input: a stock failing all four checks, but
with F-Score 8 ≥ 7 and Z-Score 3 > 2.99, ends `WATCHLIST`, not `PASS`. -/
theorem c2_witness :
    (determineOverallStatus defaultThresholds
      ⟨false, false, false, false, some 3, some 8, true, none⟩).overall_status ≠ "PASS" :=
  c2_quality_rescue_never_pass defaultThresholds
    ⟨false, false, false, false, some 3, some 8, true, none⟩ 8 3 rfl rfl
    (by decide) (by norm_num [defaultThresholds])
    (by norm_num +decide [statusAfterFVeto, applyWeakFinancialsVeto, statusAfterZVeto,
      applyBankruptcyVeto, baseStatus, defaultThresholds])

/-- Claim C7 counterexample: an analysis with `debtToEquity = 300` does fail
the solvency check, but with F-Score 8 and Z-Score 4 the quality rescue
promotes the overall status to `WATCHLIST`, not `REJECT`; and the card's
`red_flags` list after `_check_solvency` contains no string mentioning
"High Debt" (the tag goes to `solvency_check['tags']`). -/
theorem c7_counterexample :
    (checkSolvency defaultThresholds (some 300) (some 2)).is_passing = false ∧
    (determineOverallStatus defaultThresholds
      (highDebtStatusInputs (some 2) true true true (some 4) (some 8) true none)).overall_status
      = "WATCHLIST" ∧
    ((checkSolvencyOnCard defaultThresholds
        ⟨"FAIL", 100, "GARP", emptySolvencyCheck, "REJECT", "", [], []⟩
        (some 300) (some 2)).red_flags.all
      (fun fl => !(strContains fl "High Debt"))) = true := by
  refine ⟨by decide, ?_, by decide⟩
  norm_num +decide [highDebtStatusInputs, checkSolvency, determineOverallStatus,
    applyNewsVeto, statusAfterTrend, applyTrendFilter, statusAfterRescue,
    applyQualityRescue, statusAfterFVeto, applyWeakFinancialsVeto,
    statusAfterZVeto, applyBankruptcyVeto, baseStatus, defaultThresholds]

/-- Claim C7 (amended): for every analysis input with `debtToEquity = 300`,
the solvency check fails and the tag `"🔴 High Debt (>200%)"` is recorded in
`solvency_check['tags']` (while `_check_solvency` leaves `red_flags`
untouched); the final overall status is `REJECT` or `WATCHLIST`, and it is
`REJECT` whenever the quality rescue does not fire (F-Score below 7 or
Z-Score not above 2.99). -/
theorem c7_amended_high_debt (cr : Option ℚ) (q v tech : Bool) (z : Option ℚ)
    (f : Option ℤ) (ma : Bool) (news : Option NewsAnalysis)
    (card : StockHealthCard) :
    (checkSolvency defaultThresholds (some 300) cr).is_passing = false ∧
    "🔴 High Debt (>200%)" ∈ (checkSolvency defaultThresholds (some 300) cr).tags ∧
    (checkSolvencyOnCard defaultThresholds card (some 300) cr).red_flags = card.red_flags ∧
    ((determineOverallStatus defaultThresholds
        (highDebtStatusInputs cr q v tech z f ma news)).overall_status = "REJECT" ∨
      (determineOverallStatus defaultThresholds
        (highDebtStatusInputs cr q v tech z f ma news)).overall_status = "WATCHLIST") ∧
    ((∀ (fsc : ℤ) (zvc : ℚ), f = some fsc → z = some zvc →
        ¬(7 ≤ fsc ∧ 299/100 < zvc)) →
      (determineOverallStatus defaultThresholds
        (highDebtStatusInputs cr q v tech z f ma news)).overall_status = "REJECT") := by
  have hd : (300:ℚ) > defaultThresholds.max_debt := by norm_num [defaultThresholds]
  have hpass : (checkSolvency defaultThresholds (some 300) cr).is_passing = false := by
    simp only [checkSolvency]
    rw [if_pos hd]
    simp
  have hbase : baseStatus (highDebtStatusInputs cr q v tech z f ma news) =
      ⟨"REJECT", "Fundamental Red Flags", []⟩ :=
    baseStatus_reject_of_not_solvency _ hpass
  have hfv : (statusAfterFVeto defaultThresholds
      (highDebtStatusInputs cr q v tech z f ma news)).overall_status = "REJECT" :=
    statusAfterFVeto_reject_of_base_reject _ _ (by rw [hbase])
  refine ⟨hpass, ?_, rfl, ?_, ?_⟩
  · simp only [checkSolvency]
    rw [if_pos hd]
    refine List.mem_append.mpr (Or.inl ?_)
    simp only [List.mem_singleton]
    decide
  · rcases applyQualityRescue_status defaultThresholds f z
        (statusAfterFVeto defaultThresholds (highDebtStatusInputs cr q v tech z f ma news))
      with h | h
    · left
      refine determine_reject_of_afterRescue_reject _ _ ?_
      show (applyQualityRescue defaultThresholds f z _).overall_status = "REJECT"
      rw [h]
      exact hfv
    · right
      have h3 : (statusAfterRescue defaultThresholds
          (highDebtStatusInputs cr q v tech z f ma news)).overall_status = "WATCHLIST" := h
      have h4 := applyTrendFilter_preserves_watchlist
        (highDebtStatusInputs cr q v tech z f ma news).is_above_ma200 _ h3
      rw [determine_of_afterTrend_ne_pass _ _ (by rw [show (statusAfterTrend defaultThresholds
        (highDebtStatusInputs cr q v tech z f ma news)).overall_status = "WATCHLIST" from h4]; decide)]
      exact h4
  · intro hno
    have hre : statusAfterRescue defaultThresholds (highDebtStatusInputs cr q v tech z f ma news) =
        statusAfterFVeto defaultThresholds (highDebtStatusInputs cr q v tech z f ma news) := by
      unfold statusAfterRescue
      cases f with
      | none => exact applyQualityRescue_none_f _ _ _
      | some fsc =>
        cases z with
        | none => exact applyQualityRescue_none_z _ _ _
        | some zvc =>
          exact applyQualityRescue_of_not_cond _ _ _ _ (hno fsc zvc rfl rfl)
    refine determine_reject_of_afterRescue_reject _ _ ?_
    rw [hre]
    exact hfv

/-- Witness for the amended C7: with F-Score 2 and Z-Score 1 the rescue
cannot fire, so the `debtToEquity = 300` input ends `REJECT`. -/
theorem c7_witness :
    (determineOverallStatus defaultThresholds
      (highDebtStatusInputs (some 2) true true true (some 1) (some 2) true none)).overall_status
      = "REJECT" :=
  (c7_amended_high_debt (some 2) true true true (some 1) (some 2) true none
      ⟨"FAIL", 100, "GARP", emptySolvencyCheck, "REJECT", "", [], []⟩).2.2.2.2
    (fun fsc zvc hf hz => by
      injection hf with hf1
      injection hz with hz1
      subst hf1
      subst hz1
      intro hc
      exact absurd hc.1 (by decide))

/-- Claim C8 counterexample: the cached-data fallback of
`GARPStrategy.analyze` reconstructs a card and then assigns
`raw.get('overall_status', 'UNKNOWN')` directly to `overall_status`; with no
cached status the card ends with `overall_status = "UNKNOWN"`, which is not
one of `PASS | WATCHLIST | REJECT`. -/
theorem c8_counterexample :
    (analyzeCachedFallback "GARP" "VOO" none none none "2025-06-01").overall_status
      = "UNKNOWN" ∧
    "UNKNOWN" ∉ validStatusValues :=
  ⟨rfl, by decide⟩

/-- Claim C8 (amended): dataclass construction succeeds exactly when
`overall_status` is one of `PASS | WATCHLIST | REJECT` (`__post_init__`
raises otherwise); `_determine_overall_status` always returns one of the
three; but the cached-data fallback of `analyze` bypasses validation and
writes `raw.get('overall_status', 'UNKNOWN')` verbatim into the card. -/
theorem c8_amended_status_values :
    (∀ (sym : String) (price : ℚ) (st s : String),
      (∃ card, mkStockHealthCard sym price st s = Except.ok card) ↔
        s ∈ validStatusValues) ∧
    (∀ (t : Thresholds) (i : StatusInputs),
      (determineOverallStatus t i).overall_status ∈ validStatusValues) ∧
    (∀ (st sym : String) (rs : Option String) (rp : Option ℚ)
        (ros : Option String) (cd : String),
      (analyzeCachedFallback st sym rs rp ros cd).overall_status =
        ros.getD "UNKNOWN") := by
  refine ⟨?_, ?_, ?_⟩
  · intro sym price st s
    constructor
    · rintro ⟨card, hc⟩
      by_cases h : s ∈ validStatusValues
      · exact h
      · unfold mkStockHealthCard at hc
        rw [if_neg h] at hc
        exact absurd hc (by simp)
    · intro h
      exact ⟨{ symbol := sym, price := price, strategy_type := st,
               solvency_check := emptySolvencyCheck, overall_status := s,
               overall_reason := "", red_flags := [], advanced_tags := [] },
        by unfold mkStockHealthCard; rw [if_pos h]⟩
  · intro t i
    have hb := baseStatus_mem i
    have h1 := mem_validStatus_step _ _ "REJECT"
      (applyBankruptcyVeto_status t i.altman_z_score (baseStatus i)) hb (by decide)
    have h2 := mem_validStatus_step _ _ "WATCHLIST"
      (applyWeakFinancialsVeto_status t i.piotroski_score _) h1 (by decide)
    have h3 := mem_validStatus_step _ _ "WATCHLIST"
      (applyQualityRescue_status t i.piotroski_score i.altman_z_score _) h2 (by decide)
    have h4 := mem_validStatus_step _ _ "WATCHLIST"
      (applyTrendFilter_status i.is_above_ma200 _) h3 (by decide)
    exact mem_validStatus_step _ _ "WATCHLIST"
      (applyNewsVeto_status i.news_analysis _) h4 (by decide)
  · intro st sym rs rp ros cd
    rfl

/-- Witness for the amended C8: constructing with the valid status
`"REJECT"` succeeds, so `"REJECT"` is in the valid set. -/
theorem c8_witness : "REJECT" ∈ validStatusValues :=
  (c8_amended_status_values.1 "AAPL" 0 "GARP" "REJECT").mp ⟨_, rfl⟩

/-- Claim C3: for every market-sentiment z-score, the discount rate used by
`calculate_sentiment_adjusted_dcf` exceeds the 3% terminal growth rate by at
least one percentage point, so the perpetuity denominator
`discount_rate - terminal_growth` is strictly positive and the
terminal-value division is never by zero.  (The sentiment penalty
`0.02·tanh(z)` is never negative, so the rate is at least the 9% base and
the safety clamp never even fires.) -/
theorem c3_discount_rate_dominates_terminal_growth (z : ℝ) :
    dcfTerminalGrowth + 0.01 ≤ dcfDiscountRate z ∧
    0 < dcfDiscountRate z - dcfTerminalGrowth := by
  have hp : 0 ≤ dcfSentimentPenalty z := by
    unfold dcfSentimentPenalty
    split_ifs with h
    · have ht : 0 ≤ Real.tanh z := by
        rw [Real.tanh_eq_sinh_div_cosh]
        exact div_nonneg (Real.sinh_pos_iff.mpr h).le (Real.cosh_pos z).le
      exact mul_nonneg (by norm_num) ht
    · exact le_refl 0
  have hbase : dcfBaseRate = (0.09 : ℝ) := rfl
  have hterm : dcfTerminalGrowth = (0.03 : ℝ) := rfl
  have hno : ¬ (dcfBaseRate + dcfSentimentPenalty z ≤ dcfTerminalGrowth) := by
    rw [hbase, hterm]
    intro hcon
    nlinarith [hp]
  unfold dcfDiscountRate
  rw [if_neg hno, hbase, hterm]
  constructor <;> nlinarith [hp]

/-- Claim C6 counterexample: the growth-rate ceiling of
`calculate_sentiment_adjusted_dcf` is NOT sector-dependent — there is no
pair of inputs that agree on `revenueGrowth` but differ in sector and
receive different growth rates, because the function never reads the
sector and applies the one fixed cap of 15%. -/
theorem c6_counterexample :
    ¬ ∃ i1 i2 : DcfInfoFields, i1.revenueGrowth = i2.revenueGrowth ∧
      i1.sector ≠ i2.sector ∧ dcfGrowthRate i1 ≠ dcfGrowthRate i2 := by
  rintro ⟨i1, i2, hrg, _, hne⟩
  exact hne (by unfold dcfGrowthRate; rw [hrg])

/-- Claim C6 (amended): the growth rate is trailing revenue growth floored
at 2% and capped at the one fixed global ceiling of 15%, identically for
every sector: sector never changes the result, the output always lies in
[2%, 15%], inputs at or above 15% are cut to 15%, inputs at or below 2% are
raised to 2%, and inputs inside the band pass through unchanged. -/
theorem c6_amended_fixed_growth_cap (sector1 sector2 : String) (rg : ℚ)
    (org : Option ℚ) :
    dcfGrowthRate ⟨sector1, org⟩ = dcfGrowthRate ⟨sector2, org⟩ ∧
    2/100 ≤ dcfGrowthRate ⟨sector1, org⟩ ∧
    dcfGrowthRate ⟨sector1, org⟩ ≤ 15/100 ∧
    (15/100 ≤ rg → dcfGrowthRate ⟨sector1, some rg⟩ = 15/100) ∧
    (rg ≤ 2/100 → dcfGrowthRate ⟨sector1, some rg⟩ = 2/100) ∧
    (2/100 ≤ rg → rg ≤ 15/100 → dcfGrowthRate ⟨sector1, some rg⟩ = rg) := by
  refine ⟨rfl, le_max_right _ _, max_le (min_le_right _ _) (by norm_num), ?_, ?_, ?_⟩
  · intro h
    unfold dcfGrowthRate
    simp only [Option.getD_some]
    rw [min_eq_right h, max_eq_left (by norm_num)]
  · intro h
    unfold dcfGrowthRate
    simp only [Option.getD_some]
    rw [min_eq_left (le_trans h (by norm_num)), max_eq_right h]
  · intro h1 h2
    unfold dcfGrowthRate
    simp only [Option.getD_some]
    rw [min_eq_left h2, max_eq_left h1]

/-- Witness for the amended C6: a 10% trailing revenue growth passes
through unchanged for any sector. -/
theorem c6_witness : dcfGrowthRate ⟨"Utilities", some (1/10)⟩ = 1/10 :=
  (c6_amended_fixed_growth_cap "Utilities" "Technology" (1/10) (some (1/10))).2.2.2.2.2
    (by norm_num) (by norm_num)

/-! ## Ledger-aggregate helper lemmas for the backtest engine -/

theorem buyNotional_append (l1 l2 : List TradeRecord) :
    buyNotional (l1 ++ l2) = buyNotional l1 + buyNotional l2 := by
  simp [buyNotional, List.filter_append]

theorem sellProceeds_append (l1 l2 : List TradeRecord) :
    sellProceeds (l1 ++ l2) = sellProceeds l1 + sellProceeds l2 := by
  simp [sellProceeds, List.filter_append]

theorem buyShares_append (l1 l2 : List TradeRecord) :
    buyShares (l1 ++ l2) = buyShares l1 + buyShares l2 := by
  simp [buyShares, List.filter_append]

theorem sellShares_append (l1 l2 : List TradeRecord) :
    sellShares (l1 ++ l2) = sellShares l1 + sellShares l2 := by
  simp [sellShares, List.filter_append]

theorem executeTrade_invariant (initial : ℚ) (date : ℕ) (price : ℚ)
    (signal reason : String) (s : EngineState) (h : LedgerInvariant initial s) :
    LedgerInvariant initial (executeTrade date price signal reason s) := by
  obtain ⟨hc, hh⟩ := h
  simp only [executeTrade]
  split_ifs with h1 h2 h3 h4 h5
  · constructor
    · simp +decide [buyNotional_append, sellProceeds_append, buyNotional, sellProceeds] at hc ⊢
      linarith [hc]
    · simp +decide [buyShares_append, sellShares_append, buyShares, sellShares] at hh ⊢
      linarith [hh]
  · exact ⟨hc, hh⟩
  · exact ⟨hc, hh⟩
  · constructor
    · simp +decide [buyNotional_append, sellProceeds_append, buyNotional, sellProceeds] at hc ⊢
      linarith [hc]
    · simp +decide [buyShares_append, sellShares_append, buyShares, sellShares] at hh ⊢
      linarith [hh]
  · exact ⟨hc, hh⟩
  · exact ⟨hc, hh⟩

theorem runTrades_invariant_aux (initial : ℚ)
    (events : List (ℕ × ℚ × String × String)) :
    ∀ s, LedgerInvariant initial s →
      LedgerInvariant initial
        (events.foldl (fun s e => executeTrade e.1 e.2.1 e.2.2.1 e.2.2.2 s) s) := by
  induction events with
  | nil => exact fun s h => h
  | cons e rest ih =>
    intro s h
    exact ih _ (executeTrade_invariant initial e.1 e.2.1 e.2.2.1 e.2.2.2 s h)

/-- Claim C4: the backtest ledger satisfies the accounting identity.  After
any sequence of `_execute_trade` events starting from fresh capital, the
state satisfies `capital = initial − Σ BUY value + Σ SELL value` and
`holdings = Σ BUY shares − Σ SELL shares`; hence final portfolio value
minus initial capital equals SELL proceeds minus BUY notional plus the
final holdings valued at the last price; and a single `_execute_trade`
preserves the invariant from any state satisfying it. -/
theorem c4_ledger_accounting_identity :
    (∀ (initial_capital : ℚ) (events : List (ℕ × ℚ × String × String))
        (last_price : ℚ),
      LedgerInvariant initial_capital (runTrades initial_capital events) ∧
      portfolioValue (runTrades initial_capital events) last_price - initial_capital =
        sellProceeds (runTrades initial_capital events).ledger -
        buyNotional (runTrades initial_capital events).ledger +
        ((runTrades initial_capital events).holdings : ℚ) * last_price) ∧
    (∀ (initial_capital : ℚ) (date : ℕ) (price : ℚ) (signal reason : String)
        (s : EngineState),
      LedgerInvariant initial_capital s →
      LedgerInvariant initial_capital (executeTrade date price signal reason s)) := by
  constructor
  · intro initial_capital events last_price
    have h0 : LedgerInvariant initial_capital ⟨initial_capital, 0, []⟩ := by
      constructor
      · simp [buyNotional, sellProceeds]
      · simp [buyShares, sellShares]
    have hinv : LedgerInvariant initial_capital (runTrades initial_capital events) :=
      runTrades_invariant_aux initial_capital events _ h0
    refine ⟨hinv, ?_⟩
    obtain ⟨hc, hh⟩ := hinv
    unfold portfolioValue
    linarith [hc]
  · exact fun initial_capital date price signal reason s h =>
      executeTrade_invariant initial_capital date price signal reason s h

/-- Witness for C4: one BUY trade from 10000 in cash preserves the
invariant. -/
theorem c4_witness :
    LedgerInvariant 10000
      (executeTrade 0 100 "PASS" "All Systems Go (GARP Approved)" ⟨10000, 0, []⟩) :=
  c4_ledger_accounting_identity.2 10000 0 100 "PASS" "All Systems Go (GARP Approved)"
    ⟨10000, 0, []⟩
    ⟨by norm_num [buyNotional, sellProceeds], by norm_num [buyShares, sellShares]⟩

/-- Claim C9: when `GARPStrategy.analyze` raises on a simulated day, the
backtest loop skips that day — the engine state (capital, holdings and the
ledger) is exactly what it was before the day — and the fold simply
continues with the remaining trading days. -/
theorem c9_scoring_failure_skips_day
    (analyzeOn : ℕ → Except String (String × String)) (d : ℕ × ℚ)
    (err : String) (s : EngineState) (rest : List (ℕ × ℚ))
    (h : analyzeOn d.1 = .error err) :
    stepDay analyzeOn s d = s ∧
    (d :: rest).foldl (stepDay analyzeOn) s = rest.foldl (stepDay analyzeOn) s := by
  have h1 : stepDay analyzeOn s d = s := by
    unfold stepDay
    rw [h]
  exact ⟨h1, by rw [List.foldl_cons, h1]⟩

/-- Witness for C9 at a concrete failing day: an `analyze` that always
throws leaves the state untouched and the run continues. -/
theorem c9_witness :
    stepDay (fun _ => .error "data gap") ⟨10000, 0, []⟩ (0, 100) = ⟨10000, 0, []⟩ ∧
    ((0, 100) :: [(1, 50)]).foldl (stepDay (fun _ => .error "data gap")) ⟨10000, 0, []⟩ =
      [(1, 50)].foldl (stepDay (fun _ => .error "data gap")) ⟨10000, 0, []⟩ :=
  c9_scoring_failure_skips_day (fun _ => .error "data gap") (0, 100) "data gap"
    ⟨10000, 0, []⟩ [(1, 50)] rfl

theorem get_val_of_none (df : Statement) (row : String) (idx : ℕ)
    (h : df row = none) : get_val df row idx = 0 := by
  simp [get_val, h]

theorem one_le_countP_of_mem_true (l : List Bool) (h : true ∈ l) :
    1 ≤ ((l.countP (fun b => b) : ℕ) : ℤ) := by
  have hpos : 0 < l.countP (fun b => b) := List.countP_pos_iff.mpr ⟨true, h, rfl⟩
  omega

theorem dilutionCriterion_of_missing (bs : Statement)
    (h1 : bs "Ordinary Shares Number" = none) (h2 : bs "Share Issued" = none) :
    dilutionCriterion bs = true := by
  simp [dilutionCriterion, get_val_of_none _ _ _ h1, get_val_of_none _ _ _ h2]

/-- Claim C10: when neither `'Ordinary Shares Number'` nor `'Share Issued'`
is present in the balance sheet, both the current and prior share counts
read as `0.0`, the no-dilution criterion `shares_curr ≤ shares_py` holds,
and the F-Score counts the point with the `"✅ No Dilution"` detail — fully
missing share data earns the no-dilution point. -/
theorem c10_missing_shares_earn_no_dilution (bs inc cf : Statement)
    (h1 : bs "Ordinary Shares Number" = none) (h2 : bs "Share Issued" = none) :
    get_val bs "Ordinary Shares Number" 0 = 0 ∧
    get_val bs "Ordinary Shares Number" 1 = 0 ∧
    get_val bs "Share Issued" 0 = 0 ∧
    get_val bs "Share Issued" 1 = 0 ∧
    dilutionCriterion bs = true ∧
    "✅ No Dilution" ∈ (calculate_piotroski_f_score true bs inc cf).detailList ∧
    (calculate_piotroski_f_score true bs inc cf).score ≠ none ∧
    (∀ sc : ℤ, (calculate_piotroski_f_score true bs inc cf).score = some sc →
      1 ≤ sc) := by
  have hd := dilutionCriterion_of_missing bs h1 h2
  refine ⟨get_val_of_none _ _ _ h1, get_val_of_none _ _ _ h1,
    get_val_of_none _ _ _ h2, get_val_of_none _ _ _ h2, hd, ?_, ?_, ?_⟩
  · simp [calculate_piotroski_f_score, FScoreResult.detailList, hd]
  · simp [calculate_piotroski_f_score, FScoreResult.score]
  · intro sc hsc
    simp only [calculate_piotroski_f_score, Bool.not_true, Bool.false_eq_true,
      if_false, FScoreResult.score, Option.some.injEq] at hsc
    subst hsc
    refine one_le_countP_of_mem_true _ ?_
    simp [hd]

/-- Witness for C10: on fully empty statements, the dilution criterion
holds and the point is earned. -/
theorem c10_witness : dilutionCriterion (fun _ => none) = true :=
  (c10_missing_shares_earn_no_dilution (fun _ => none) (fun _ => none)
    (fun _ => none) rfl rfl).2.2.2.2.1

/-! ## Bootstrap helper lemmas -/

theorem foldl_mul_one_add (p : List ℚ) :
    ∀ a : ℚ, p.foldl (fun acc r => acc * (1 + r)) a =
      a * ((p.map (fun r => 1 + r)).prod) := by
  induction p with
  | nil => intro a; simp
  | cons r t ih =>
    intro a
    simp only [List.foldl_cons, List.map_cons, List.prod_cons, ih, mul_assoc]

theorem cumReturnFold_eq_prod (p : List ℚ) :
    cumReturnFold p = ((p.map (fun r => 1 + r)).prod) - 1 := by
  unfold cumReturnFold
  rw [foldl_mul_one_add p 1, one_mul]

theorem sum_indicator_eq_countP (xs : List ℚ) :
    ((xs.map (fun x => if 0 < x then (1:ℚ) else 0)).sum) =
      (xs.countP (fun x => decide (0 < x)) : ℚ) := by
  induction xs with
  | nil => simp
  | cons x t ih =>
    by_cases h : 0 < x
    · simp [List.countP_cons, h, ih, add_comm]
    · simp [List.countP_cons, h, ih]

theorem npMeanOfPos_eq_frac (xs : List ℚ) :
    npMeanOfPos xs = (xs.countP (fun x => decide (0 < x)) : ℚ) / (xs.length : ℚ) := by
  unfold npMeanOfPos
  rw [sum_indicator_eq_countP]

theorem npMeanOfPos_nonneg (xs : List ℚ) : 0 ≤ npMeanOfPos xs := by
  rw [npMeanOfPos_eq_frac]
  positivity

theorem npMeanOfPos_le_one (xs : List ℚ) (h : xs ≠ []) : npMeanOfPos xs ≤ 1 := by
  rw [npMeanOfPos_eq_frac]
  have hl : 0 < (xs.length : ℚ) := by
    have := List.length_pos.mpr h
    exact_mod_cast this
  rw [div_le_one hl]
  exact_mod_cast List.countP_le_length _

/-- Claim C5: `_run_regime_bootstrap` (with the random draw abstracted as
the path list `sims`) selects the regime-matching pool, falling back to the
full history when the pool has fewer than 50 observations, and its
`sample_size` is the size of the pool used; each path is compounded
multiplicatively, `expected_return` is the median of the cumulative path
returns, `var_95` their 5th percentile, and `win_rate` the fraction of
paths with positive cumulative return, which always lies in [0, 1]. -/
theorem c5_regime_bootstrap_summary (returns : List ℚ) (spyBullish : List Bool)
    (is_current_bullish : Bool) (sims : List (List ℚ))
    (_hr : returns ≠ []) (hs : sims ≠ []) :
    (runRegimeBootstrap returns spyBullish is_current_bullish sims).sample_size =
      (if (((returns.zip spyBullish).filter
            (fun p => if is_current_bullish then p.2 else !p.2)).map Prod.fst).length < 50
       then returns.length
       else (((returns.zip spyBullish).filter
            (fun p => if is_current_bullish then p.2 else !p.2)).map Prod.fst).length) ∧
    (runRegimeBootstrap returns spyBullish is_current_bullish sims).expected_return =
      npMedian (sims.map (fun p => ((p.map (fun r => 1 + r)).prod) - 1)) ∧
    (runRegimeBootstrap returns spyBullish is_current_bullish sims).var_95 =
      npPercentile (sims.map (fun p => ((p.map (fun r => 1 + r)).prod) - 1)) 5 ∧
    (runRegimeBootstrap returns spyBullish is_current_bullish sims).win_rate =
      ((sims.map cumReturnFold).countP (fun x => decide (0 < x)) : ℚ) /
        ((sims.map cumReturnFold).length : ℚ) ∧
    0 ≤ (runRegimeBootstrap returns spyBullish is_current_bullish sims).win_rate ∧
    (runRegimeBootstrap returns spyBullish is_current_bullish sims).win_rate ≤ 1 := by
  have hmap : sims.map cumReturnFold =
      sims.map (fun p => ((p.map (fun r => 1 + r)).prod) - 1) :=
    List.map_congr_left (fun p _ => cumReturnFold_eq_prod p)
  have hne : sims.map cumReturnFold ≠ [] := by
    intro hcon
    exact hs (List.map_eq_nil_iff.mp hcon)
  refine ⟨?_, ?_, ?_, ?_, ?_, ?_⟩
  · simp only [runRegimeBootstrap, selectSamplePool]
    split_ifs <;> rfl
  · show npMedian (sims.map cumReturnFold) = _
    rw [hmap]
  · show npPercentile (sims.map cumReturnFold) 5 = _
    rw [hmap]
  · exact npMeanOfPos_eq_frac _
  · exact npMeanOfPos_nonneg _
  · exact npMeanOfPos_le_one _ hne

/-- Witness for C5 at a concrete draw of two paths over a one-day pool. -/
theorem c5_witness :
    0 ≤ (runRegimeBootstrap [1/10] [true] true [[1/10], [-1/2]]).win_rate :=
  (c5_regime_bootstrap_summary [1/10] [true] true [[1/10], [-1/2]]
    (by decide) (by decide)).2.2.2.2.1

end AIStock
